import Mathlib

/-!
# Verification of the WorkLog attendance / approval core

Shallow embedding of the time-accounting and approval-workflow core of the
WorkLog employee-attendance system, together with proofs settling the
specification's claims against the code.

Conventions of the embedding:

* Times of day are modelled as seconds since midnight (`ℕ`); durations in
  seconds are `ℤ`.  The source receives times in three shapes (string
  `'%H:%M:%S'`, `timedelta`, native `time`) and normalises each to the same
  time-of-day before computing, so one numeric representation is faithful.
* The source's float arithmetic acts on whole-second inputs, so every
  pre-rounding value is an exact multiple of 1/3600 hour; Python's
  `round(x, 2)` (round half to even) is embedded as integer rounding of
  `seconds/36` to centihours (`centiOfSecs`), so every two-decimal output
  is an integer number of centihours.
* SQL rows become structures, tables become lists; `fetch_one` on a keyed
  query is `List.find?`, a conditioned `UPDATE` is a `List.map` guarded by
  the query's `WHERE` clause.  `Database.execute_query` returns `True`
  whenever the statement executes without a connector error, regardless of
  how many rows were affected; the approval workflows are modelled with a
  healthy store (every statement executes), while the attendance mutations
  take an explicit `write_ok` oracle because their claims are about write
  failure.
-/

/-- `round(seconds / 3600, 2)` expressed in centihours: rounds `s / 36` to
the nearest integer, ties to even (Python's `round`).  `/` and `%` on `ℤ`
are Euclidean, so `s / 36 = ⌊s / 36⌋` and `s % 36 ∈ [0, 36)`. -/
def centiOfSecs (s : ℤ) : ℤ :=
  if s % 36 < 18 then s / 36
  else if 18 < s % 36 then s / 36 + 1
  else if (s / 36) % 2 = 0 then s / 36 else s / 36 + 1

/-- Python truthiness of an optional stored TIME value: the DB connector
returns TIME columns as `timedelta`, and `if lunch_start and lunch_end`
treats both `None` and a zero `timedelta` as falsy. -/
def tdTruthy : Option ℕ → Bool
  | none => false
  | some s => s != 0

/-- `AttendanceModel.STANDARD_WORKING_HOURS` (= 8 hours = 800 centihours). -/
def STANDARD_WORKING_HOURS : ℤ := 8

/-- Result dictionary of `AttendanceController.compute_paid_hours`:
`total_time`, `lunch_duration`, `paid_hours`, each in centihours. -/
structure PaidHoursResult where
  total_time : ℤ
  lunch_duration : ℤ
  paid_hours : ℤ
deriving DecidableEq, Repr

/-- `AttendanceController.compute_paid_hours`.  All four arguments are
normalised to datetimes on `date.today()`, so only the time-of-day matters.
If either of `time_in` / `time_out` is `None`, all outputs are zero.  The
lunch interval is subtracted only when both lunch bounds are truthy; the
paid value is `total − lunch` computed before rounding, and each of the
three outputs is rounded to two decimals independently. -/
def compute_paid_hours (time_in time_out lunch_start lunch_end : Option ℕ) :
    PaidHoursResult :=
  match time_in, time_out with
  | some tin, some tout =>
    let totalSecs : ℤ := (tout : ℤ) - (tin : ℤ)
    let lunchSecs : ℤ :=
      if tdTruthy lunch_start && tdTruthy lunch_end then
        (lunch_end.getD 0 : ℤ) - (lunch_start.getD 0 : ℤ)
      else 0
    { total_time := centiOfSecs totalSecs
      lunch_duration := centiOfSecs lunchSecs
      paid_hours := centiOfSecs (totalSecs - lunchSecs) }
  | _, _ => { total_time := 0, lunch_duration := 0, paid_hours := 0 }

/-- `AttendanceController.determine_status`.  The source combines the shift
start (a `time`) with `date.today()`, adds the grace period, and takes
`.time()` of the result — i.e. the grace deadline is reduced modulo 24 h.
`paid_hours` is the already-rounded two-decimal float, given in centihours
(`850` = 8.5 hours). -/
def determine_status (time_in : ℕ) (paid_hours : ℤ)
    (shift_start_time : ℕ) (grace_period_mins : ℕ) : String :=
  let grace_end := (shift_start_time + grace_period_mins * 60) % 86400
  (if grace_end < time_in then "Late" else "On Time") ++ ", " ++
    (if 100 * STANDARD_WORKING_HOURS ≤ paid_hours then "Complete"
     else "Undertime")

/-- Modelled from the spec: `determineStatus` as §4.2 words it — "Late" iff
`timeIn > shiftStart + gracePeriod` with the deadline NOT reduced modulo
24 h, "Complete" iff `paidHours ≥ 8.0`; used for refinement comparison with
`determine_status`. -/
def spec_determine_status (time_in : ℕ) (paid_hours : ℤ)
    (shift_start_time : ℕ) (grace_period_mins : ℕ) : String :=
  (if shift_start_time + grace_period_mins * 60 < time_in then "Late"
   else "On Time") ++ ", " ++
    (if 800 ≤ paid_hours then "Complete" else "Undertime")

-- Basic facts about the rounding function, shared by several claims.

theorem centiOfSecs_nonneg {s : ℤ} (hs : 0 ≤ s) : 0 ≤ centiOfSecs s := by
  unfold centiOfSecs
  split
  · omega
  · split
    · omega
    · split <;> omega

theorem centiOfSecs_neg {s : ℤ} (hs : s < -18) : centiOfSecs s < 0 := by
  unfold centiOfSecs
  split
  · omega
  · split
    · omega
    · split <;> omega

example : centiOfSecs 52 = 1 := by decide
example : centiOfSecs 26 = 1 := by decide
example : centiOfSecs (-1) = 0 := by decide
example : compute_paid_hours (some 28800) (some 28852) (some 28800) (some 28826) =
    { total_time := 1, lunch_duration := 1, paid_hours := 1 } := by decide
example : determine_status 28800 850 28800 15 = "On Time, Complete" := by decide
example : determine_status 30000 850 28800 15 = "Late, Complete" := by decide
example : determine_status 28800 850 85800 15 = "Late, Complete" := by decide
example : spec_determine_status 28800 850 85800 15 = "On Time, Complete" := by decide

-- ## Approval workflows (leave / overtime / late-consideration)

/-- Request status column: `'Pending' | 'Approved' | 'Rejected'`. -/
inductive ReqStatus
  | Pending
  | Approved
  | Rejected
deriving DecidableEq, Repr

/-- Row of `leave_requests` (`LeaveModel.FIELDS`).  `days_count` and
`leave_credits` are read through `int(... or 0)` in the controller, so they
are plain integers here. -/
structure LeaveRequest where
  id : ℕ
  employee_id : ℕ
  leave_type : String
  start_date : ℕ
  end_date : ℕ
  days_count : ℤ
  reason : String
  evidence_path : Option String
  status : ReqStatus
  reviewed_by : Option ℕ
  reviewed_at : Option ℕ
  remarks : Option String
  employee_notified : Bool
deriving DecidableEq, Repr

/-- Row of `employees`, restricted to the columns the leave workflow reads. -/
structure Employee where
  id : ℕ
  leave_credits : ℤ
deriving DecidableEq, Repr

/-- The slice of the store the leave workflow touches. -/
structure LeaveDB where
  leave_requests : List LeaveRequest
  employees : List Employee
deriving DecidableEq, Repr

/-- The distinct return sites of `LeaveController.approve_leave`, which
returns `(bool, message)` pairs; each constructor tags one message. -/
inductive LeaveApproveMsg
  | notFound
  | employeeNotFound
  | insufficientCredits (available required : ℤ)
  | approveFailed
  | approved
deriving DecidableEq, Repr

/-- `LeaveController.approve_leave`.  Re-reads the request
(`Q_SELECT_BY_ID`) and the employee's credits
(`Q_SELECT_EMPLOYEE_CREDITS`); fails if either is missing or if
`credits < days_count`; otherwise runs `Q_APPROVE` (an `UPDATE ... WHERE
id = %s` with NO status condition) and then `Q_DEDUCT_CREDITS`.  The store
is modelled healthy, so `execute_query` returns `True` (the
`approveFailed` branch is the connector-error path). -/
def approve_leave (db : LeaveDB) (now leave_id reviewer : ℕ)
    (remarks : Option String) : LeaveApproveMsg × LeaveDB :=
  match db.leave_requests.find? (fun r => r.id == leave_id) with
  | none => (.notFound, db)
  | some leave =>
    match db.employees.find? (fun e => e.id == leave.employee_id) with
    | none => (.employeeNotFound, db)
    | some emp =>
      let credits := emp.leave_credits
      let required := leave.days_count
      if credits < required then
        (.insufficientCredits credits required, db)
      else
        let db1 : LeaveDB :=
          { db with leave_requests := db.leave_requests.map (fun r =>
              if r.id == leave_id then
                { r with status := .Approved, reviewed_by := some reviewer,
                         reviewed_at := some now, remarks := remarks }
              else r) }
        let db2 : LeaveDB :=
          { db1 with employees := db1.employees.map (fun e =>
              if e.id == leave.employee_id then
                { e with leave_credits := e.leave_credits - leave.days_count }
              else e) }
        (.approved, db2)

/-- `LeaveController.create_leave_request`: runs `Q_INSERT` (status
`'Pending'`) unconditionally and returns the new id.  `next_id` stands for
the store's `LAST_INSERT_ID`. -/
def create_leave_request (db : LeaveDB) (next_id employee_id : ℕ)
    (leave_type : String) (start_date end_date : ℕ) (days_count : ℤ)
    (reason : String) (evidence_path : Option String) :
    Option ℕ × LeaveDB :=
  (some next_id,
   { db with leave_requests := db.leave_requests ++
      [{ id := next_id, employee_id := employee_id, leave_type := leave_type,
         start_date := start_date, end_date := end_date,
         days_count := days_count, reason := reason,
         evidence_path := evidence_path, status := .Pending,
         reviewed_by := none, reviewed_at := none, remarks := none,
         employee_notified := false }] })

/-- `LeaveModel.Q_MARK_ALL_NOTIFIED` via
`LeaveController.mark_all_notified`: set `employee_notified = 1` on every
row of the employee whose status is Approved or Rejected and which is not
yet notified. -/
def mark_all_leave_notified (db : LeaveDB) (employee_id : ℕ) : LeaveDB :=
  { db with leave_requests := db.leave_requests.map (fun r =>
      if r.employee_id == employee_id &&
         (r.status == .Approved || r.status == .Rejected) &&
         r.employee_notified == false then
        { r with employee_notified := true }
      else r) }

/-- Row of `overtime_requests` (`OvertimeModel.FIELDS`); `hours_requested`
in centihours. -/
structure OvertimeRequest where
  id : ℕ
  employee_id : ℕ
  request_date : ℕ
  hours_requested : ℤ
  reason : String
  status : ReqStatus
  reviewed_by : Option ℕ
  reviewed_at : Option ℕ
  remarks : Option String
  actual_overtime : Option ℤ
  employee_notified : Bool
deriving DecidableEq, Repr

/-- `OvertimeController.approve_request`: runs `Q_APPROVE`, whose `WHERE`
clause is `id = %s AND status = 'Pending'`; `execute_query` returns `True`
whether or not any row matched. -/
def approve_overtime (reqs : List OvertimeRequest)
    (request_id reviewer now : ℕ) (remarks : Option String) :
    Bool × List OvertimeRequest :=
  (true, reqs.map (fun r =>
    if r.id == request_id && r.status == .Pending then
      { r with status := .Approved, reviewed_by := some reviewer,
               reviewed_at := some now, remarks := remarks }
    else r))

/-- `OvertimeController.reject_request` (`Q_REJECT`, same Pending-guarded
`WHERE` clause). -/
def reject_overtime (reqs : List OvertimeRequest)
    (request_id reviewer now : ℕ) (remarks : Option String) :
    Bool × List OvertimeRequest :=
  (true, reqs.map (fun r =>
    if r.id == request_id && r.status == .Pending then
      { r with status := .Rejected, reviewed_by := some reviewer,
               reviewed_at := some now, remarks := remarks }
    else r))

/-- `OvertimeController.has_pending_request` (`Q_HAS_PENDING`): count of
Pending rows for `(employee, request_date)` is positive. -/
def has_pending_overtime (reqs : List OvertimeRequest)
    (employee_id request_date : ℕ) : Bool :=
  0 < (reqs.filter (fun r =>
    r.employee_id == employee_id && r.request_date == request_date &&
      r.status == .Pending)).length

/-- `OvertimeModel.Q_SELECT_APPROVED_FOR_DATE`. -/
def approved_overtime_for_date (reqs : List OvertimeRequest)
    (employee_id request_date : ℕ) : Option OvertimeRequest :=
  reqs.find? (fun r =>
    r.employee_id == employee_id && r.request_date == request_date &&
      r.status == .Approved)

/-- `OvertimeModel.Q_MARK_ALL_NOTIFIED`. -/
def mark_all_overtime_notified (reqs : List OvertimeRequest)
    (employee_id : ℕ) : List OvertimeRequest :=
  reqs.map (fun r =>
    if r.employee_id == employee_id &&
       (r.status == .Approved || r.status == .Rejected) &&
       r.employee_notified == false then
      { r with employee_notified := true }
    else r)

/-- Row of `late_considerations` (`LateConsiderationModel.FIELDS`). -/
structure LateConsiderationRequest where
  id : ℕ
  employee_id : ℕ
  attendance_date : ℕ
  reason : String
  evidence_path : Option String
  status : ReqStatus
  reviewed_by : Option ℕ
  reviewed_at : Option ℕ
  remarks : Option String
  employee_notified : Bool
deriving DecidableEq, Repr

/-- `StaffDashboardController.approve_late_consideration`
(`LateConsiderationModel.Q_APPROVE`, Pending-guarded `WHERE` clause). -/
def approve_late_consideration (reqs : List LateConsiderationRequest)
    (request_id reviewer now : ℕ) (remarks : Option String) :
    Bool × List LateConsiderationRequest :=
  (true, reqs.map (fun r =>
    if r.id == request_id && r.status == .Pending then
      { r with status := .Approved, reviewed_by := some reviewer,
               reviewed_at := some now, remarks := remarks }
    else r))

/-- `StaffDashboardController.reject_late_consideration`
(`LateConsiderationModel.Q_REJECT`). -/
def reject_late_consideration (reqs : List LateConsiderationRequest)
    (request_id reviewer now : ℕ) (remarks : Option String) :
    Bool × List LateConsiderationRequest :=
  (true, reqs.map (fun r =>
    if r.id == request_id && r.status == .Pending then
      { r with status := .Rejected, reviewed_by := some reviewer,
               reviewed_at := some now, remarks := remarks }
    else r))

/-- `StaffDashboardController.create_late_consideration`: runs `Q_INSERT`
(status `'Pending'`) unconditionally; `has_pending_late_consideration`
exists in the controller but no caller consults it before this insert. -/
def create_late_consideration (reqs : List LateConsiderationRequest)
    (next_id employee_id attendance_date : ℕ) (reason : String)
    (evidence_path : Option String) :
    Bool × List LateConsiderationRequest :=
  (true, reqs ++
    [{ id := next_id, employee_id := employee_id,
       attendance_date := attendance_date, reason := reason,
       evidence_path := evidence_path, status := .Pending,
       reviewed_by := none, reviewed_at := none, remarks := none,
       employee_notified := false }])

/-- `LateConsiderationModel.Q_MARK_ALL_NOTIFIED`. -/
def mark_all_late_consideration_notified
    (reqs : List LateConsiderationRequest) (employee_id : ℕ) :
    List LateConsiderationRequest :=
  reqs.map (fun r =>
    if r.employee_id == employee_id &&
       (r.status == .Approved || r.status == .Rejected) &&
       r.employee_notified == false then
      { r with employee_notified := true }
    else r)

/-- Outcome of the overtime submission flow in the employee dashboard
(`submit_overtime` in `employee_dashboard_view.py`). -/
inductive OvertimeSubmitResult
  | missingReason
  | duplicatePending
  | alreadyApproved
  | submitted (id : ℕ)
deriving DecidableEq, Repr

/-- The overtime submission flow: the view rejects an empty reason, then a
pending duplicate for `(employee, request_date)`, then an already-approved
overtime for that date, and only then inserts (`Q_INSERT`, status
`'Pending'`). -/
def submit_overtime (reqs : List OvertimeRequest)
    (next_id employee_id request_date : ℕ) (hours : ℤ) (reason : String) :
    OvertimeSubmitResult × List OvertimeRequest :=
  if reason = "" then (.missingReason, reqs)
  else if has_pending_overtime reqs employee_id request_date then
    (.duplicatePending, reqs)
  else if (approved_overtime_for_date reqs employee_id request_date).isSome then
    (.alreadyApproved, reqs)
  else
    (.submitted next_id, reqs ++
      [{ id := next_id, employee_id := employee_id,
         request_date := request_date, hours_requested := hours,
         reason := reason, status := .Pending, reviewed_by := none,
         reviewed_at := none, remarks := none, actual_overtime := none,
         employee_notified := false }])

/-- One reviewer action in a sequence of approve/reject calls. -/
inductive ReviewOp
  | approve (reviewer now : ℕ) (remarks : Option String)
  | reject (reviewer now : ℕ) (remarks : Option String)
deriving DecidableEq, Repr

/-- Apply one reviewer action to the overtime table. -/
def apply_overtime_op (request_id : ℕ) (reqs : List OvertimeRequest) :
    ReviewOp → Bool × List OvertimeRequest
  | .approve reviewer now remarks =>
      approve_overtime reqs request_id reviewer now remarks
  | .reject reviewer now remarks =>
      reject_overtime reqs request_id reviewer now remarks

/-- Run a sequence of approve/reject calls against one overtime request id,
collecting each call's returned value. -/
def run_overtime_ops (request_id : ℕ) :
    List OvertimeRequest → List ReviewOp → List Bool × List OvertimeRequest
  | reqs, [] => ([], reqs)
  | reqs, op :: ops =>
    let step := apply_overtime_op request_id reqs op
    let rest := run_overtime_ops request_id step.2 ops
    (step.1 :: rest.1, rest.2)

/-- Apply one reviewer action to the late-consideration table. -/
def apply_late_consideration_op (request_id : ℕ)
    (reqs : List LateConsiderationRequest) :
    ReviewOp → Bool × List LateConsiderationRequest
  | .approve reviewer now remarks =>
      approve_late_consideration reqs request_id reviewer now remarks
  | .reject reviewer now remarks =>
      reject_late_consideration reqs request_id reviewer now remarks

/-- Run a sequence of approve/reject calls against one late-consideration
request id. -/
def run_late_consideration_ops (request_id : ℕ) :
    List LateConsiderationRequest → List ReviewOp →
    List Bool × List LateConsiderationRequest
  | reqs, [] => ([], reqs)
  | reqs, op :: ops =>
    let step := apply_late_consideration_op request_id reqs op
    let rest := run_late_consideration_ops request_id step.2 ops
    (step.1 :: rest.1, rest.2)

-- ## Shift resolution and the attendance state machine

/-- Row of `shifts` (`ShiftModel.FIELDS`); `min_hours_before_lunch` in
centihours (300 = 3 hours). -/
structure Shift where
  shift_name : String
  start_time : ℕ
  end_time : ℕ
  work_hours : ℤ
  grace_period_mins : ℕ
  min_hours_before_lunch : ℤ
deriving DecidableEq, Repr

/-- `AttendanceController._get_employee_shift`: the assigned active shift,
else the default active shift (`Q_SELECT_DEFAULT`), else any active shift
(`Q_SELECT_FIRST_ACTIVE`); `none` when no shift exists at all. -/
def get_employee_shift (assigned default_shift first_active : Option Shift) :
    Option Shift :=
  match assigned with
  | some s => some s
  | none =>
    match default_shift with
    | some s => some s
    | none => first_active

/-- Row of `attendance` (`AttendanceModel.FIELDS`), for one employee and
one date; derived fields in centihours. -/
structure AttRec where
  time_in : Option ℕ
  lunch_start : Option ℕ
  lunch_end : Option ℕ
  time_out : Option ℕ
  total_time : Option ℤ
  lunch_duration : Option ℤ
  paid_hours : Option ℤ
  overtime_hours : Option ℤ
  status : Option String
deriving DecidableEq, Repr

/-- Attendance rows for this employee and today; `Q_GET_TODAY` through
`fetch_one` returns the first row. -/
def get_today_record (recs : List AttRec) : Option AttRec :=
  recs.head?

/-- Outcomes of `AttendanceController.can_check_in` (the source returns a
`(can, title, message, msg_type)` tuple; each constructor tags one return
site). -/
inductive CheckInGuard
  | sundayBlocked
  | alreadyCheckedIn
  | outsideShift
  | allowed
deriving DecidableEq, Repr

/-- `AttendanceController.can_check_in`: Sunday guard, existing-record
guard, then the shift-window guard — for a day shift (`start < end`) block
if `now > end`; otherwise (wraparound) block if `end < now < start`; if no
shift resolves, the window guard is skipped entirely.  (The source also
allows check-in when shift-time parsing throws; typed inputs cannot
throw here.) -/
def can_check_in (is_sunday : Bool) (recs : List AttRec)
    (assigned default_shift first_active : Option Shift) (now : ℕ) :
    CheckInGuard :=
  if is_sunday then .sundayBlocked
  else if (get_today_record recs).isSome then .alreadyCheckedIn
  else
    match get_employee_shift assigned default_shift first_active with
    | some s =>
      let outside : Bool :=
        if s.start_time < s.end_time then decide (s.end_time < now)
        else decide (s.end_time < now ∧ now < s.start_time)
      if outside then .outsideShift else .allowed
    | none => .allowed

/-- Outcomes of `AttendanceController.can_start_lunch`. -/
inductive LunchGuard
  | notCheckedIn
  | alreadyStarted
  | alreadyCheckedOut
  | tooEarly
  | allowed
deriving DecidableEq, Repr

/-- `AttendanceController.can_start_lunch`: record with `time_in` set,
`lunch_start` unset, `time_out` unset, and at least the shift's
minimum-hours-before-lunch elapsed (`float(... or 3)` hours — a missing or
zero value falls back to 3 h = 300 centihours = 10800 s). -/
def can_start_lunch (recs : List AttRec) (shift : Option Shift) (now : ℕ) :
    LunchGuard :=
  match get_today_record recs with
  | none => .notCheckedIn
  | some r =>
    if r.lunch_start.isSome then .alreadyStarted
    else if r.time_out.isSome then .alreadyCheckedOut
    else
      match r.time_in with
      | some tin =>
        let min_centi : ℤ :=
          match shift with
          | some s =>
            if s.min_hours_before_lunch = 0 then 300
            else s.min_hours_before_lunch
          | none => 300
        if (now : ℤ) < (tin : ℤ) + min_centi * 36 then .tooEarly
        else .allowed
      | none => .allowed

/-- `AttendanceController.check_in`: builds the insert parameters from
`now` and runs `Q_CHECK_IN` (status `'Incomplete'`).  No guard is
evaluated; the result is `True` exactly when the write executed. -/
def check_in (recs : List AttRec) (write_ok : Bool) (now : ℕ) :
    Bool × List AttRec :=
  if write_ok then
    (true, recs ++
      [{ time_in := some now, lunch_start := none, lunch_end := none,
         time_out := none, total_time := none, lunch_duration := none,
         paid_hours := none, overtime_hours := none,
         status := some "Incomplete" }])
  else (false, recs)

/-- `AttendanceController.start_lunch`: runs `Q_START_LUNCH` (an `UPDATE`
of every row for (employee, today)).  No guard is evaluated. -/
def start_lunch (recs : List AttRec) (write_ok : Bool) (now : ℕ) :
    Bool × List AttRec :=
  if write_ok then
    (true, recs.map (fun r => { r with lunch_start := some now }))
  else (false, recs)

/-- `AttendanceController.end_lunch`: runs `Q_END_LUNCH`.  No guard is
evaluated. -/
def end_lunch (recs : List AttRec) (write_ok : Bool) (now : ℕ) :
    Bool × List AttRec :=
  if write_ok then
    (true, recs.map (fun r => { r with lunch_end := some now }))
  else (false, recs)

/-- Outcomes of `AttendanceController.check_out`. -/
inductive CheckOutResult
  | notCheckedIn
  | alreadyCheckedOut
  | writeFailed
  | success
deriving DecidableEq, Repr

/-- `AttendanceController.check_out`: unlike the other mutations it
re-reads today's record and re-validates (record exists, `time_out`
unset) before computing the derived fields and writing them with
`Q_CHECK_OUT`.  Overtime is `max(0, paid − 8 h)`; the status uses the
shift start (default `08:00:00` = 28800 s) and grace (`int(... or 15)`). -/
def check_out (recs : List AttRec) (write_ok : Bool) (now : ℕ)
    (shift : Option Shift) : CheckOutResult × List AttRec :=
  match get_today_record recs with
  | none => (.notCheckedIn, recs)
  | some rec =>
    if rec.time_out.isSome then (.alreadyCheckedOut, recs)
    else
      let result :=
        compute_paid_hours rec.time_in (some now) rec.lunch_start rec.lunch_end
      let overtime : ℤ :=
        max 0 (result.paid_hours - 100 * STANDARD_WORKING_HOURS)
      let shift_start : ℕ :=
        match shift with
        | some s => s.start_time
        | none => 28800
      let grace : ℕ :=
        match shift with
        | some s => if s.grace_period_mins = 0 then 15 else s.grace_period_mins
        | none => 15
      let status :=
        determine_status (rec.time_in.getD 0) result.paid_hours shift_start grace
      if write_ok then
        (.success, recs.map (fun r =>
          { r with time_out := some now, total_time := some result.total_time,
                   lunch_duration := some result.lunch_duration,
                   paid_hours := some result.paid_hours,
                   overtime_hours := some overtime, status := some status }))
      else (.writeFailed, recs)

-- ## Shared helper lemmas

theorem map_idem_of_pointwise {α : Type} (f : α → α)
    (hf : ∀ a, f (f a) = f a) (l : List α) :
    (l.map f).map f = l.map f := by
  induction l with
  | nil => rfl
  | cons a l ih => simp [hf, ih]

theorem iterate_succ_of_idem {α : Type} (g : α → α)
    (hg : ∀ x, g (g x) = g x) : ∀ (n : ℕ) (x : α), g^[n + 1] x = g x := by
  intro n
  induction n with
  | zero => intro x; rfl
  | succ m ih =>
    intro x
    rw [Function.iterate_succ_apply, ih (g x), hg]

-- ## C1 — second approval of an already-Approved leave request

/-- State after a first successful approval: request 1 (5 days, employee 7)
is Approved, the employee's credits already debited from 10 to 5. -/
def leaveC1 : LeaveRequest :=
  { id := 1, employee_id := 7, leave_type := "Vacation", start_date := 100,
    end_date := 104, days_count := 5, reason := "trip", evidence_path := none,
    status := .Approved, reviewed_by := some 2, reviewed_at := some 1000,
    remarks := some "ok", employee_notified := false }

def dbC1 : LeaveDB :=
  { leave_requests := [leaveC1], employees := [{ id := 7, leave_credits := 5 }] }

/-- C1: the claim says a second approve on an already-Approved leave
request fails (`AlreadyReviewed`) and leaves `leave_credits` unchanged.
The code disagrees: `Q_APPROVE` carries no `status = 'Pending'` condition
and `execute_query` ignores the affected-row count, so the second call
returns success and runs `Q_DEDUCT_CREDITS` again, driving credits from 5
to 0. -/
theorem C1_second_leave_approve_succeeds_and_debits_again :
    leaveC1.status = .Approved ∧
    (approve_leave dbC1 2000 1 9 none).1 = .approved ∧
    (approve_leave dbC1 2000 1 9 none).2.employees =
      [{ id := 7, leave_credits := 0 }] := by
  decide

-- ## C2 — insufficient credits abort before any write

/-- C2: whenever the re-read request and employee exist and the employee's
current credits `C` are less than the request's `days_count D`,
`approve_leave` returns the insufficient-credits failure and returns the
store exactly as it was: the request's status (in particular Pending) and
the credit balance `C` are untouched. -/
theorem C2_insufficient_credits_aborts_without_write
    (db : LeaveDB) (now leave_id reviewer : ℕ) (remarks : Option String)
    (leave : LeaveRequest) (emp : Employee)
    (hl : db.leave_requests.find? (fun r => r.id == leave_id) = some leave)
    (he : db.employees.find? (fun e => e.id == leave.employee_id) = some emp)
    (hc : emp.leave_credits < leave.days_count) :
    approve_leave db now leave_id reviewer remarks =
      (.insufficientCredits emp.leave_credits leave.days_count, db) := by
  simp only [approve_leave, hl, he, if_pos hc]

def leaveC2 : LeaveRequest :=
  { id := 1, employee_id := 7, leave_type := "Sick", start_date := 200,
    end_date := 204, days_count := 5, reason := "flu", evidence_path := none,
    status := .Pending, reviewed_by := none, reviewed_at := none,
    remarks := none, employee_notified := false }

def dbC2 : LeaveDB :=
  { leave_requests := [leaveC2], employees := [{ id := 7, leave_credits := 3 }] }

theorem C2_witness :
    approve_leave dbC2 0 1 9 none = (.insufficientCredits 3 5, dbC2) :=
  C2_insufficient_credits_aborts_without_write dbC2 0 1 9 none leaveC2
    { id := 7, leave_credits := 3 } (by decide) (by decide) (by decide)

-- ## C3 — Approved / Rejected are terminal for overtime and late-consideration

theorem overtime_update_skips_non_pending
    (f : OvertimeRequest → OvertimeRequest) (request_id : ℕ)
    (reqs : List OvertimeRequest)
    (h : ∀ r ∈ reqs, r.id = request_id → r.status ≠ .Pending) :
    reqs.map (fun r =>
      if r.id == request_id && r.status == .Pending then f r else r) = reqs := by
  induction reqs with
  | nil => rfl
  | cons a l ih =>
    have ha : (a.id == request_id && (a.status == ReqStatus.Pending)) = false := by
      by_cases hid : a.id = request_id
      · have := h a (List.mem_cons_self a l) hid
        simp [hid, this]
      · simp [hid]
    simp only [List.map_cons, ha, Bool.false_eq_true, if_false]
    rw [ih (fun r hr hid => h r (List.mem_cons_of_mem a hr) hid)]

theorem late_consideration_update_skips_non_pending
    (f : LateConsiderationRequest → LateConsiderationRequest) (request_id : ℕ)
    (reqs : List LateConsiderationRequest)
    (h : ∀ r ∈ reqs, r.id = request_id → r.status ≠ .Pending) :
    reqs.map (fun r =>
      if r.id == request_id && r.status == .Pending then f r else r) = reqs := by
  induction reqs with
  | nil => rfl
  | cons a l ih =>
    have ha : (a.id == request_id && (a.status == ReqStatus.Pending)) = false := by
      by_cases hid : a.id = request_id
      · have := h a (List.mem_cons_self a l) hid
        simp [hid, this]
      · simp [hid]
    simp only [List.map_cons, ha, Bool.false_eq_true, if_false]
    rw [ih (fun r hr hid => h r (List.mem_cons_of_mem a hr) hid)]

theorem apply_overtime_op_on_terminal (request_id : ℕ)
    (reqs : List OvertimeRequest) (op : ReviewOp)
    (h : ∀ r ∈ reqs, r.id = request_id → r.status ≠ .Pending) :
    apply_overtime_op request_id reqs op = (true, reqs) := by
  cases op with
  | approve reviewer now remarks =>
    simp only [apply_overtime_op, approve_overtime]
    rw [overtime_update_skips_non_pending _ _ _ h]
  | reject reviewer now remarks =>
    simp only [apply_overtime_op, reject_overtime]
    rw [overtime_update_skips_non_pending _ _ _ h]

theorem apply_late_consideration_op_on_terminal (request_id : ℕ)
    (reqs : List LateConsiderationRequest) (op : ReviewOp)
    (h : ∀ r ∈ reqs, r.id = request_id → r.status ≠ .Pending) :
    apply_late_consideration_op request_id reqs op = (true, reqs) := by
  cases op with
  | approve reviewer now remarks =>
    simp only [apply_late_consideration_op, approve_late_consideration]
    rw [late_consideration_update_skips_non_pending _ _ _ h]
  | reject reviewer now remarks =>
    simp only [apply_late_consideration_op, reject_late_consideration]
    rw [late_consideration_update_skips_non_pending _ _ _ h]

/-- C3 (amended): once an overtime or late-consideration request is
terminal (not Pending), any sequence of subsequent approve/reject calls on
its id leaves every stored row — status, reviewer, timestamp, remarks —
unchanged, because the Pending-conditioned `UPDATE` matches zero rows.
Each call, however, returns `True` (the generic success value of
`execute_query`), not an `AlreadyReviewed` signal, because the source never
inspects the affected-row count. -/
theorem C3_terminal_statuses_are_frozen :
    (∀ (reqs : List OvertimeRequest) (request_id : ℕ) (ops : List ReviewOp),
      (∀ r ∈ reqs, r.id = request_id → r.status ≠ .Pending) →
      run_overtime_ops request_id reqs ops =
        (List.replicate ops.length true, reqs)) ∧
    (∀ (reqs : List LateConsiderationRequest) (request_id : ℕ)
        (ops : List ReviewOp),
      (∀ r ∈ reqs, r.id = request_id → r.status ≠ .Pending) →
      run_late_consideration_ops request_id reqs ops =
        (List.replicate ops.length true, reqs)) := by
  constructor
  · intro reqs request_id ops h
    induction ops with
    | nil => rfl
    | cons op ops ih =>
      simp only [run_overtime_ops, apply_overtime_op_on_terminal _ _ _ h, ih,
        List.length_cons, List.replicate_succ]
  · intro reqs request_id ops h
    induction ops with
    | nil => rfl
    | cons op ops ih =>
      simp only [run_late_consideration_ops,
        apply_late_consideration_op_on_terminal _ _ _ h, ih,
        List.length_cons, List.replicate_succ]

/-- An already-Approved overtime request. -/
def otC3 : OvertimeRequest :=
  { id := 1, employee_id := 7, request_date := 300, hours_requested := 200,
    reason := "deploy", status := .Approved, reviewed_by := some 2,
    reviewed_at := some 1000, remarks := some "ok", actual_overtime := none,
    employee_notified := false }

/-- An already-Rejected late-consideration request. -/
def lcC3 : LateConsiderationRequest :=
  { id := 4, employee_id := 7, attendance_date := 300, reason := "traffic",
    evidence_path := none, status := .Rejected, reviewed_by := some 2,
    reviewed_at := some 1000, remarks := some "no", employee_notified := false }

/-- C3 counterexample to the claim as stated: a second approve on a
terminal overtime (resp. reject on a terminal late-consideration) request
leaves the rows unchanged but returns `true` — the very same value a
successful fresh approval returns — so the caller is told success, not
`AlreadyReviewed`. -/
theorem C3_second_review_returns_plain_success :
    approve_overtime [otC3] 1 9 2000 none = (true, [otC3]) ∧
    reject_late_consideration [lcC3] 4 9 2000 none = (true, [lcC3]) ∧
    (approve_overtime [{ otC3 with status := .Pending }] 1 9 2000 none).1 =
      (approve_overtime [otC3] 1 9 2000 none).1 := by
  decide

theorem C3_witness :
    run_overtime_ops 1 [otC3]
        [.approve 9 2000 none, .reject 8 3000 (some "again")] =
      ([true, true], [otC3]) ∧
    run_late_consideration_ops 4 [lcC3] [.approve 9 2000 none] =
      ([true], [lcC3]) :=
  ⟨C3_terminal_statuses_are_frozen.1 [otC3] 1
      [.approve 9 2000 none, .reject 8 3000 (some "again")] (by decide),
   C3_terminal_statuses_are_frozen.2 [lcC3] 4 [.approve 9 2000 none]
      (by decide)⟩

-- ## C4 — duplicate Pending submissions

/-- An existing Pending leave request for employee 7, dates 100–102. -/
def leaveC4 : LeaveRequest :=
  { id := 1, employee_id := 7, leave_type := "Vacation", start_date := 100,
    end_date := 102, days_count := 3, reason := "trip", evidence_path := none,
    status := .Pending, reviewed_by := none, reviewed_at := none,
    remarks := none, employee_notified := false }

def dbC4 : LeaveDB :=
  { leave_requests := [leaveC4], employees := [{ id := 7, leave_credits := 10 }] }

/-- C4 counterexample to the claim as stated: with a Pending leave request
already on file for employee 7 and dates 100–102, submitting the same
leave again does not fail with a duplicate error — the insert runs and the
store ends up holding two Pending leave requests for the same
(employee, date range). -/
theorem C4_duplicate_leave_submission_not_rejected :
    leaveC4.status = .Pending ∧
    (create_leave_request dbC4 2 7 "Vacation" 100 102 3 "trip again" none).1 =
      some 2 ∧
    ((create_leave_request dbC4 2 7 "Vacation" 100 102 3 "trip again"
        none).2.leave_requests.filter (fun r =>
          r.employee_id == 7 && r.start_date == 100 && r.end_date == 102 &&
            r.status == .Pending)).length = 2 := by
  decide

/-- C4 (amended): only the overtime submission flow checks for an existing
Pending request before inserting — with a Pending overtime on file for
(employee, date) it refuses with the duplicate error and leaves the store
unchanged.  Leave and late-consideration submissions run their inserts
unconditionally, so the at-most-one-Pending invariant is not enforced for
those two types. -/
theorem C4_only_overtime_checks_duplicates :
    (∀ (reqs : List OvertimeRequest) (next_id employee_id request_date : ℕ)
        (hours : ℤ) (reason : String),
      reason ≠ "" →
      has_pending_overtime reqs employee_id request_date = true →
      submit_overtime reqs next_id employee_id request_date hours reason =
        (.duplicatePending, reqs)) ∧
    (∀ (db : LeaveDB) (next_id employee_id : ℕ) (leave_type : String)
        (start_date end_date : ℕ) (days_count : ℤ) (reason : String)
        (evidence_path : Option String),
      create_leave_request db next_id employee_id leave_type start_date
          end_date days_count reason evidence_path =
        (some next_id,
         { db with leave_requests := db.leave_requests ++
            [{ id := next_id, employee_id := employee_id,
               leave_type := leave_type, start_date := start_date,
               end_date := end_date, days_count := days_count,
               reason := reason, evidence_path := evidence_path,
               status := .Pending, reviewed_by := none, reviewed_at := none,
               remarks := none, employee_notified := false }] })) ∧
    (∀ (reqs : List LateConsiderationRequest)
        (next_id employee_id attendance_date : ℕ) (reason : String)
        (evidence_path : Option String),
      create_late_consideration reqs next_id employee_id attendance_date
          reason evidence_path =
        (true, reqs ++
          [{ id := next_id, employee_id := employee_id,
             attendance_date := attendance_date, reason := reason,
             evidence_path := evidence_path, status := .Pending,
             reviewed_by := none, reviewed_at := none, remarks := none,
             employee_notified := false }])) := by
  refine ⟨?_, ?_, ?_⟩
  · intro reqs next_id employee_id request_date hours reason hr hp
    simp only [submit_overtime, if_neg hr, hp, if_pos]
  · intro db next_id employee_id leave_type start_date end_date days_count
      reason evidence_path
    rfl
  · intro reqs next_id employee_id attendance_date reason evidence_path
    rfl

def otC4 : OvertimeRequest :=
  { id := 3, employee_id := 7, request_date := 400, hours_requested := 200,
    reason := "release", status := .Pending, reviewed_by := none,
    reviewed_at := none, remarks := none, actual_overtime := none,
    employee_notified := false }

theorem C4_witness :
    submit_overtime [otC4] 5 7 400 150 "release again" =
      (.duplicatePending, [otC4]) ∧
    (create_leave_request dbC4 2 7 "Vacation" 100 102 3 "trip again" none).1 =
      some 2 ∧
    (create_late_consideration [] 1 7 400 "traffic" none).1 = true :=
  ⟨C4_only_overtime_checks_duplicates.1 [otC4] 5 7 400 150 "release again"
      (by decide) (by decide),
   by rw [C4_only_overtime_checks_duplicates.2.1 dbC4 2 7 "Vacation" 100 102 3
        "trip again" none],
   by rw [C4_only_overtime_checks_duplicates.2.2 [] 1 7 400 "traffic" none]⟩

-- ## C5 — paid-hours arithmetic

/-- C5 counterexample to the claim as stated: a valid ordered input
(08:00:00 ≤ 08:00:00 ≤ 08:00:26 ≤ 08:00:52, in seconds) on which the three
independently-rounded outputs are total = 0.01, lunch = 0.01, paid = 0.01,
so the returned values violate `paidHours = totalHours − lunchHours`
(0.01 ≠ 0.01 − 0.01). -/
theorem C5_rounded_identity_fails :
    (28800 ≤ 28800 ∧ 28800 ≤ 28826 ∧ 28826 ≤ 28852) ∧
    compute_paid_hours (some 28800) (some 28852) (some 28800) (some 28826) =
      { total_time := 1, lunch_duration := 1, paid_hours := 1 } ∧
    ¬ ((compute_paid_hours (some 28800) (some 28852) (some 28800)
          (some 28826)).paid_hours =
        (compute_paid_hours (some 28800) (some 28852) (some 28800)
          (some 28826)).total_time -
        (compute_paid_hours (some 28800) (some 28852) (some 28800)
          (some 28826)).lunch_duration) := by
  decide

/-- C5 (amended): for every valid ordered input the identity
`paid = total − lunch` holds on the exact pre-rounding values — the
returned `paid_hours` is the two-decimal rounding of the exact difference
(the three rounded outputs may each be off by half a hundredth, so the
identity need not survive rounding) — and the returned `paid_hours` is
never negative; `lunch_duration` is zero whenever the two lunch bounds are
not both present (truthy). -/
theorem C5_paid_is_exact_difference_before_rounding
    (tin ls le tout : ℕ) (h0 : 0 < ls) (h1 : tin ≤ ls) (h2 : ls ≤ le)
    (h3 : le ≤ tout) :
    (compute_paid_hours (some tin) (some tout) (some ls)
        (some le)).paid_hours =
      centiOfSecs (((tout : ℤ) - (tin : ℤ)) - ((le : ℤ) - (ls : ℤ))) ∧
    0 ≤ (compute_paid_hours (some tin) (some tout) (some ls)
        (some le)).paid_hours ∧
    (∀ lso leo : Option ℕ, (tdTruthy lso && tdTruthy leo) = false →
      (compute_paid_hours (some tin) (some tout) lso leo).lunch_duration =
          0 ∧
        (compute_paid_hours (some tin) (some tout) lso leo).paid_hours =
          (compute_paid_hours (some tin) (some tout) lso leo).total_time) := by
  have hts : tdTruthy (some ls) = true := by
    simp [tdTruthy]
    omega
  have hte : tdTruthy (some le) = true := by
    simp [tdTruthy]
    omega
  refine ⟨?_, ?_, ?_⟩
  · simp [compute_paid_hours, hts, hte]
  · have : (0 : ℤ) ≤ ((tout : ℤ) - (tin : ℤ)) - ((le : ℤ) - (ls : ℤ)) := by
      omega
    simp only [compute_paid_hours, hts, hte, Bool.and_self, if_pos,
      Option.getD_some]
    exact centiOfSecs_nonneg (by omega)
  · intro lso leo hfalse
    constructor
    · simp [compute_paid_hours, hfalse]
      decide
    · simp [compute_paid_hours, hfalse]

theorem C5_witness :
    (compute_paid_hours (some 28800) (some 28852) (some 28800)
        (some 28826)).paid_hours = centiOfSecs 26 ∧
    0 ≤ (compute_paid_hours (some 28800) (some 28852) (some 28800)
        (some 28826)).paid_hours ∧
    (∀ lso leo : Option ℕ, (tdTruthy lso && tdTruthy leo) = false →
      (compute_paid_hours (some 28800) (some 28852) lso leo).lunch_duration =
          0 ∧
        (compute_paid_hours (some 28800) (some 28852) lso leo).paid_hours =
          (compute_paid_hours (some 28800) (some 28852) lso
            leo).total_time) :=
  C5_paid_is_exact_difference_before_rounding 28800 28800 28826 28852
    (by decide) (by decide) (by decide) (by decide)

-- ## C9 — overnight spans are not wrapped around midnight

/-- C9 counterexample to the claim as stated: with `time_out` one second
earlier than `time_in`, the exact difference is −1 s ≈ −0.0003 h, which
rounds to 0.00 — the returned `total_time` and `paid_hours` are 0, not
negative, so "returns a negative totalHours and paidHours" fails for this
overnight input. -/
theorem C9_one_second_overnight_rounds_to_zero :
    28799 < 28800 ∧
    compute_paid_hours (some 28800) (some 28799) none none =
      { total_time := 0, lunch_duration := 0, paid_hours := 0 } := by
  decide

/-- C9 (amended): every argument is interpreted as a time-of-day on the
same calendar day, so for `time_out` earlier than `time_in` the total is
the rounding of the genuinely negative same-day difference — no 24-hour
wraparound is applied — and both `total_time` and `paid_hours` are
strictly negative as soon as the backwards gap exceeds 18 seconds (half a
hundredth of an hour; a smaller gap rounds to 0.00). -/
theorem C9_overnight_spans_go_negative (tin tout : ℕ)
    (h : (tout : ℤ) < (tin : ℤ) - 18) :
    (compute_paid_hours (some tin) (some tout) none none).total_time =
      centiOfSecs ((tout : ℤ) - (tin : ℤ)) ∧
    (compute_paid_hours (some tin) (some tout) none none).total_time < 0 ∧
    (compute_paid_hours (some tin) (some tout) none none).paid_hours < 0 := by
  refine ⟨rfl, ?_, ?_⟩
  · exact centiOfSecs_neg (by omega)
  · simp only [compute_paid_hours, tdTruthy, Bool.false_and, Bool.and_self]
    exact centiOfSecs_neg (by omega)

theorem C9_witness :
    (compute_paid_hours (some 79200) (some 21600) none none).total_time =
      centiOfSecs (21600 - 79200) ∧
    (compute_paid_hours (some 79200) (some 21600) none none).total_time < 0 ∧
    (compute_paid_hours (some 79200) (some 21600) none none).paid_hours <
      0 :=
  C9_overnight_spans_go_negative 79200 21600 (by decide)

-- ## C6 — the status label

/-- C6 counterexample to the claim as stated: shift start 23:50:00
(85800 s) with 15 min grace puts the grace deadline past midnight; the
source reduces it modulo 24 h to 00:05:00, so a 08:00:00 check-in is
labelled "Late" even though `timeIn > shiftStart + gracePeriod` is false
(28800 ≤ 85800 + 900). -/
theorem C6_wrapped_grace_deadline_mislabels :
    determine_status 28800 850 85800 15 = "Late, Complete" ∧
    ¬ (85800 + 15 * 60 < 28800) := by
  decide

/-- C6 (amended): whenever the grace deadline `shiftStart + grace` does
not cross midnight, `determine_status` agrees exactly with the spec's
formula: "Late" iff `timeIn > shiftStart + gracePeriod` (so the exact
boundary is "On Time"), and "Complete" iff `paidHours ≥ 8.0`; when the
deadline crosses midnight the source compares against the deadline reduced
modulo 24 h instead. -/
theorem C6_status_matches_spec_without_midnight_wrap
    (time_in : ℕ) (paid_hours : ℤ) (shift_start grace : ℕ)
    (h : shift_start + grace * 60 < 86400) :
    determine_status time_in paid_hours shift_start grace =
      spec_determine_status time_in paid_hours shift_start grace := by
  unfold determine_status spec_determine_status STANDARD_WORKING_HOURS
  rw [Nat.mod_eq_of_lt h]
  norm_num

theorem C6_witness :
    determine_status 28800 850 28800 15 =
      spec_determine_status 28800 850 28800 15 ∧
    determine_status 30000 850 28800 15 =
      spec_determine_status 30000 850 28800 15 :=
  ⟨C6_status_matches_spec_without_midnight_wrap 28800 850 28800 15
      (by decide),
   C6_status_matches_spec_without_midnight_wrap 30000 850 28800 15
      (by decide)⟩

-- ## C7 — the check-in shift-window guard

/-- C7: with the Sunday and existing-record guards passed, the window
guard of `can_check_in` blocks exactly as specified: for a day shift
(start < end) it blocks iff `now > end`; for a wraparound night shift
(start > end) it blocks iff `end < now < start`; and when no shift at all
can be resolved (no assigned, no default, no active shift) the guard
passes (fail-open). -/
theorem C7_window_guard_blocks_exactly_as_specified
    (assigned default_shift first_active : Option Shift) (now : ℕ) :
    (∀ s : Shift,
      get_employee_shift assigned default_shift first_active = some s →
      s.start_time < s.end_time →
      can_check_in false [] assigned default_shift first_active now =
        (if s.end_time < now then .outsideShift else .allowed)) ∧
    (∀ s : Shift,
      get_employee_shift assigned default_shift first_active = some s →
      s.end_time < s.start_time →
      can_check_in false [] assigned default_shift first_active now =
        (if s.end_time < now ∧ now < s.start_time then .outsideShift
         else .allowed)) ∧
    (assigned = none → default_shift = none → first_active = none →
      can_check_in false [] assigned default_shift first_active now =
        .allowed) := by
  refine ⟨?_, ?_, ?_⟩
  · intro s hs hlt
    simp only [can_check_in, get_today_record, List.head?_nil,
      Option.isSome_none, Bool.false_eq_true, if_false, hs, if_pos hlt]
    by_cases h : s.end_time < now <;> simp [h]
  · intro s hs hlt
    have hnot : ¬ s.start_time < s.end_time := by omega
    simp only [can_check_in, get_today_record, List.head?_nil,
      Option.isSome_none, Bool.false_eq_true, if_false, hs, if_neg hnot]
    by_cases h : s.end_time < now ∧ now < s.start_time <;> simp [h]
  · intro ha hd hf
    subst ha; subst hd; subst hf
    rfl

/-- Day shift 08:00–17:00, 15 min grace, 3 h before lunch. -/
def dayShiftC7 : Shift :=
  { shift_name := "Day", start_time := 28800, end_time := 61200,
    work_hours := 8, grace_period_mins := 15, min_hours_before_lunch := 300 }

/-- Night shift 22:00–07:00 (wraparound). -/
def nightShiftC7 : Shift :=
  { shift_name := "Night", start_time := 79200, end_time := 25200,
    work_hours := 8, grace_period_mins := 15, min_hours_before_lunch := 300 }

theorem C7_witness :
    can_check_in false [] (some dayShiftC7) none none 32400 =
      (if dayShiftC7.end_time < 32400 then .outsideShift else .allowed) ∧
    can_check_in false [] (some nightShiftC7) none none 43200 =
      (if nightShiftC7.end_time < 43200 ∧ 43200 < nightShiftC7.start_time
       then .outsideShift else .allowed) ∧
    can_check_in false [] none none none 32400 = .allowed :=
  ⟨(C7_window_guard_blocks_exactly_as_specified (some dayShiftC7) none none
      32400).1 dayShiftC7 rfl (by decide),
   (C7_window_guard_blocks_exactly_as_specified (some nightShiftC7) none none
      43200).2.1 nightShiftC7 rfl (by decide),
   (C7_window_guard_blocks_exactly_as_specified none none none 32400).2.2
      rfl rfl rfl⟩

-- ## C8 — markAllNotified is idempotent and touches only reviewed rows

theorem mark_all_leave_notified_idem (db : LeaveDB) (emp : ℕ) :
    mark_all_leave_notified (mark_all_leave_notified db emp) emp =
      mark_all_leave_notified db emp := by
  unfold mark_all_leave_notified
  congr 1
  apply map_idem_of_pointwise
  intro a
  by_cases h : (a.employee_id == emp &&
      (a.status == ReqStatus.Approved || a.status == ReqStatus.Rejected) &&
      a.employee_notified == false) = true
  · simp only [if_pos h]
    rw [if_neg]
    simp
  · simp only [if_neg h]

theorem mark_all_overtime_notified_idem (reqs : List OvertimeRequest)
    (emp : ℕ) :
    mark_all_overtime_notified (mark_all_overtime_notified reqs emp) emp =
      mark_all_overtime_notified reqs emp := by
  unfold mark_all_overtime_notified
  apply map_idem_of_pointwise
  intro a
  by_cases h : (a.employee_id == emp &&
      (a.status == ReqStatus.Approved || a.status == ReqStatus.Rejected) &&
      a.employee_notified == false) = true
  · simp only [if_pos h]
    rw [if_neg]
    simp
  · simp only [if_neg h]

theorem mark_all_late_consideration_notified_idem
    (reqs : List LateConsiderationRequest) (emp : ℕ) :
    mark_all_late_consideration_notified
        (mark_all_late_consideration_notified reqs emp) emp =
      mark_all_late_consideration_notified reqs emp := by
  unfold mark_all_late_consideration_notified
  apply map_idem_of_pointwise
  intro a
  by_cases h : (a.employee_id == emp &&
      (a.status == ReqStatus.Approved || a.status == ReqStatus.Rejected) &&
      a.employee_notified == false) = true
  · simp only [if_pos h]
    rw [if_neg]
    simp
  · simp only [if_neg h]

/-- C8: for each of the three request types, running `markAllNotified`
n ≥ 1 times produces the same store as running it once, and it never
touches a Pending row (the `WHERE status IN ('Approved','Rejected')`
clause restricts the flip to reviewed rows). -/
theorem C8_mark_all_notified_idempotent :
    (∀ (db : LeaveDB) (emp n : ℕ), 1 ≤ n →
      (fun d => mark_all_leave_notified d emp)^[n] db =
        mark_all_leave_notified db emp) ∧
    (∀ (reqs : List OvertimeRequest) (emp n : ℕ), 1 ≤ n →
      (fun l => mark_all_overtime_notified l emp)^[n] reqs =
        mark_all_overtime_notified reqs emp) ∧
    (∀ (reqs : List LateConsiderationRequest) (emp n : ℕ), 1 ≤ n →
      (fun l => mark_all_late_consideration_notified l emp)^[n] reqs =
        mark_all_late_consideration_notified reqs emp) ∧
    (∀ (db : LeaveDB) (emp i : ℕ) (r : LeaveRequest),
      db.leave_requests[i]? = some r → r.status = .Pending →
      (mark_all_leave_notified db emp).leave_requests[i]? = some r) ∧
    (∀ (reqs : List OvertimeRequest) (emp i : ℕ) (r : OvertimeRequest),
      reqs[i]? = some r → r.status = .Pending →
      (mark_all_overtime_notified reqs emp)[i]? = some r) ∧
    (∀ (reqs : List LateConsiderationRequest) (emp i : ℕ)
        (r : LateConsiderationRequest),
      reqs[i]? = some r → r.status = .Pending →
      (mark_all_late_consideration_notified reqs emp)[i]? = some r) := by
  refine ⟨?_, ?_, ?_, ?_, ?_, ?_⟩
  · intro db emp n hn
    obtain ⟨m, rfl⟩ : ∃ m, n = m + 1 := ⟨n - 1, by omega⟩
    exact iterate_succ_of_idem _
      (fun x => mark_all_leave_notified_idem x emp) m db
  · intro reqs emp n hn
    obtain ⟨m, rfl⟩ : ∃ m, n = m + 1 := ⟨n - 1, by omega⟩
    exact iterate_succ_of_idem _
      (fun x => mark_all_overtime_notified_idem x emp) m reqs
  · intro reqs emp n hn
    obtain ⟨m, rfl⟩ : ∃ m, n = m + 1 := ⟨n - 1, by omega⟩
    exact iterate_succ_of_idem _
      (fun x => mark_all_late_consideration_notified_idem x emp) m reqs
  · intro db emp i r hi hp
    unfold mark_all_leave_notified
    simp only [List.getElem?_map, hi, Option.map_some]
    simp [hp]
  · intro reqs emp i r hi hp
    unfold mark_all_overtime_notified
    simp only [List.getElem?_map, hi, Option.map_some]
    simp [hp]
  · intro reqs emp i r hi hp
    unfold mark_all_late_consideration_notified
    simp only [List.getElem?_map, hi, Option.map_some]
    simp [hp]

/-- A reviewed-but-unnotified leave row, a Pending leave row, a reviewed
overtime row and a reviewed late-consideration row for employee 7. -/
def dbC8 : LeaveDB :=
  { leave_requests :=
      [{ leaveC2 with id := 1, status := .Approved, employee_notified := false },
       { leaveC2 with id := 2 }],
    employees := [{ id := 7, leave_credits := 3 }] }

theorem C8_witness :
    (fun d => mark_all_leave_notified d 7)^[2] dbC8 =
      mark_all_leave_notified dbC8 7 ∧
    (fun l => mark_all_overtime_notified l 7)^[3] [otC3] =
      mark_all_overtime_notified [otC3] 7 ∧
    (fun l => mark_all_late_consideration_notified l 7)^[2] [lcC3] =
      mark_all_late_consideration_notified [lcC3] 7 ∧
    (mark_all_leave_notified dbC8 7).leave_requests[1]? =
      some { leaveC2 with id := 2 } :=
  ⟨C8_mark_all_notified_idempotent.1 dbC8 7 2 (by decide),
   C8_mark_all_notified_idempotent.2.1 [otC3] 7 3 (by decide),
   C8_mark_all_notified_idempotent.2.2.1 [lcC3] 7 2 (by decide),
   C8_mark_all_notified_idempotent.2.2.2.1 dbC8 7 1
     { leaveC2 with id := 2 } (by decide) (by decide)⟩

-- ## C10 — the mutating attendance operations trust the write

/-- C10: `check_in`, `start_lunch` and `end_lunch` never evaluate their
transition guards — each returns success exactly when the storage write
succeeds, so calling them directly while the corresponding `can_*` guard
is failing (Sunday, outside the shift window, before the minimum-hours
lunch threshold) still issues the write and reports success; only
`check_out` re-validates its own preconditions (a record exists and
`time_out` is unset) before writing. -/
theorem C10_mutations_trust_the_write :
    (∀ (recs : List AttRec) (w : Bool) (now : ℕ),
      (check_in recs w now).1 = w) ∧
    (∀ (recs : List AttRec) (w : Bool) (now : ℕ),
      (start_lunch recs w now).1 = w) ∧
    (∀ (recs : List AttRec) (w : Bool) (now : ℕ),
      (end_lunch recs w now).1 = w) ∧
    (∀ (is_sunday : Bool) (recs : List AttRec)
        (assigned default_shift first_active : Option Shift) (now now2 : ℕ),
      can_check_in is_sunday recs assigned default_shift first_active now ≠
        .allowed →
      check_in recs true now2 =
        (true, recs ++
          [{ time_in := some now2, lunch_start := none, lunch_end := none,
             time_out := none, total_time := none, lunch_duration := none,
             paid_hours := none, overtime_hours := none,
             status := some "Incomplete" }])) ∧
    (∀ (recs : List AttRec) (shift : Option Shift) (now now2 : ℕ),
      can_start_lunch recs shift now = .tooEarly →
      start_lunch recs true now2 =
        (true, recs.map (fun r => { r with lunch_start := some now2 }))) ∧
    (∀ (w : Bool) (now : ℕ) (shift : Option Shift),
      check_out [] w now shift = (.notCheckedIn, [])) ∧
    (∀ (r : AttRec) (recs : List AttRec) (w : Bool) (now : ℕ)
        (shift : Option Shift), r.time_out.isSome →
      check_out (r :: recs) w now shift = (.alreadyCheckedOut, r :: recs)) := by
  refine ⟨?_, ?_, ?_, ?_, ?_, ?_, ?_⟩
  · intro recs w now
    cases w <;> rfl
  · intro recs w now
    cases w <;> rfl
  · intro recs w now
    cases w <;> rfl
  · intro is_sunday recs assigned default_shift first_active now now2 hguard
    rfl
  · intro recs shift now now2 hguard
    rfl
  · intro w now shift
    rfl
  · intro r recs w now shift h
    simp only [check_out, get_today_record, List.head?_cons, if_pos h]

/-- A checked-in record (time-in 08:00:00) with no lunch and no time-out. -/
def recC10 : AttRec :=
  { time_in := some 28800, lunch_start := none, lunch_end := none,
    time_out := none, total_time := none, lunch_duration := none,
    paid_hours := none, overtime_hours := none, status := some "Incomplete" }

theorem C10_witness :
    check_in [] true 28800 =
      (true, [] ++
        [{ time_in := some 28800, lunch_start := none, lunch_end := none,
           time_out := none, total_time := none, lunch_duration := none,
           paid_hours := none, overtime_hours := none,
           status := some "Incomplete" }]) ∧
    start_lunch [recC10] true 28900 =
      (true, [recC10].map (fun r => { r with lunch_start := some 28900 })) ∧
    check_out [{ recC10 with time_out := some 61200 }] true 61300 none =
      (.alreadyCheckedOut, [{ recC10 with time_out := some 61200 }]) :=
  ⟨C10_mutations_trust_the_write.2.2.2.1 true [] none none none 0 28800
      (by decide),
   C10_mutations_trust_the_write.2.2.2.2.1 [recC10] none 28900 28900
      (by decide),
   C10_mutations_trust_the_write.2.2.2.2.2.2
      { recC10 with time_out := some 61200 } [] true 61300 none (by decide)⟩
